import Mathlib

/-!
# ChatBox: the chat client of the RAG QA application

A shallow embedding of `frontend/src/components/ChatBox.jsx`.

* JavaScript values are the datatype `JSVal`; the built-ins the component calls
  (`typeof`, truthiness, property read, `String.prototype.trim`,
  `JSON.stringify`) are modelled after ECMAScript.
* The React state of the component is the record `State`.  A handler is a
  function from the state of the render it closes over to the list of effects
  it performs, in order: state setter calls and `fetch` calls.
* An `async` handler is split at its first `await`: the part that runs at the
  call, and the part that runs when the request settles (`...Resume`).
-/

namespace ChatBox

/-! ## JavaScript values -/

/-- The JavaScript values the component can hold: `undefined` and the values
`response.json()` can decode.  A Number is carried by its decimal text as
Number::toString gives it (the text `JSON.stringify` emits; both zeros are
"0"); a string by its code points (an unpaired surrogate is not
represented); an object by its own properties in enumeration order. -/
inductive JSVal where
  | undefined
  | null
  | bool (b : Bool)
  | num (text : String)
  | str (s : String)
  | arr (items : List JSVal)
  | obj (props : List (String × JSVal))

/-- The `typeof` operator. -/
def typeof : JSVal → String
  | .undefined => "undefined"
  | .null => "object"
  | .bool _ => "boolean"
  | .num _ => "number"
  | .str _ => "string"
  | .arr _ => "object"
  | .obj _ => "object"

/-- The comparison `v !== null`. -/
def notNull : JSVal → Bool
  | .null => false
  | _ => true

/-- ToBoolean: what `!v`, `v && w`, `v || w` and `if (v)` test.  (NaN is no
decoded JSON number, so the only falsy Number is zero.) -/
def truthy : JSVal → Bool
  | .undefined => false
  | .null => false
  | .bool b => b
  | .num text => text != "0"
  | .str s => s != ""
  | .arr _ => true
  | .obj _ => true

/-- The value of the own property `key` in a property list, `undefined` when
there is none. -/
def lookup (key : String) : List (String × JSVal) → JSVal
  | [] => .undefined
  | (k, v) :: rest => if k = key then v else lookup key rest

/-- The property read `v.key` for the keys the component reads (`answer`,
`result`, `success`, `message`, `detail`, `has_document`), none of which is on
a built-in prototype: a TypeError (`none`) on `undefined` and `null`, the own
property on an object, `undefined` on every other value. -/
def getProp (v : JSVal) (key : String) : Option JSVal :=
  match v with
  | .undefined => none
  | .null => none
  | .obj props => some (lookup key props)
  | _ => some .undefined

/-! ## `String.prototype.trim` -/

/-- WhiteSpace and LineTerminator code points of ECMAScript. -/
def isWhiteSpace (c : Char) : Bool :=
  let n := c.toNat
  n == 9 || n == 10 || n == 11 || n == 12 || n == 13 || n == 32 || n == 160 ||
  n == 0x1680 || (0x2000 ≤ n && n ≤ 0x200A) || n == 0x2028 || n == 0x2029 ||
  n == 0x202F || n == 0x205F || n == 0x3000 || n == 0xFEFF

/-- Trimming of a list of code points at both ends. -/
def trimChars (cs : List Char) : List Char :=
  ((cs.dropWhile isWhiteSpace).reverse.dropWhile isWhiteSpace).reverse

/-- The method `s.trim()`. -/
def trim (s : String) : String :=
  ⟨trimChars s.data⟩

/-- A text that is empty or holds white space only. -/
def blank (s : String) : Bool :=
  s.data.all isWhiteSpace

/-! ## `JSON.stringify` -/

/-- Lower-case hexadecimal digit of a number below 16. -/
def hexDigit (n : Nat) : Char :=
  if n < 10 then Char.ofNat (48 + n) else Char.ofNat (87 + n)

/-- The escape of one code point inside a JSON string (QuoteJSONString). -/
def quoteChar (c : Char) : List Char :=
  let n := c.toNat
  let bs := Char.ofNat 92
  if n == 8 then [bs, Char.ofNat 98]
  else if n == 9 then [bs, Char.ofNat 116]
  else if n == 10 then [bs, Char.ofNat 110]
  else if n == 12 then [bs, Char.ofNat 102]
  else if n == 13 then [bs, Char.ofNat 114]
  else if n == 34 then [bs, Char.ofNat 34]
  else if n == 92 then [bs, bs]
  else if n < 32 then
    [bs, Char.ofNat 117, Char.ofNat 48, Char.ofNat 48, hexDigit (n / 16), hexDigit (n % 16)]
  else [c]

/-- QuoteJSONString: the text between double quotes, escaped. -/
def quote (s : String) : String :=
  ⟨Char.ofNat 34 :: (s.data.flatMap quoteChar ++ [Char.ofNat 34])⟩

mutual
/-- SerializeJSONProperty without replacer and indent: `none` is `undefined`. -/
def serialize : JSVal → Option String
  | .undefined => none
  | .null => some "null"
  | .bool true => some "true"
  | .bool false => some "false"
  | .num text => some text
  | .str s => some (quote s)
  | .arr items => some ("[" ++ ",".intercalate (serializeItems items) ++ "]")
  | .obj props => some ("\x7b" ++ ",".intercalate (serializeProps props) ++ "\x7d")
/-- The elements of an array: an `undefined` element is written `null`. -/
def serializeItems : List JSVal → List String
  | [] => []
  | v :: rest => (serialize v).getD "null" :: serializeItems rest
/-- The members of an object: a property whose value is `undefined` is left out. -/
def serializeProps : List (String × JSVal) → List String
  | [] => []
  | (k, v) :: rest =>
    match serialize v with
    | some text => (quote k ++ ":" ++ text) :: serializeProps rest
    | none => serializeProps rest
end

/-- The call `JSON.stringify(v)`: a string, or `undefined`. -/
def JSON.stringify (v : JSVal) : JSVal :=
  match serialize v with
  | some text => .str text
  | none => .undefined

/-! ## The component state -/

/-- An element of `answerList`: the object `{ type, text }`. -/
structure Entry where
  type : String
  text : JSVal

/-- The object `{ type: "question", text }`. -/
def Entry.question (text : String) : Entry :=
  { type := "question", text := .str text }

/-- The object `{ type: "answer", text }`; `text` is the reply, a string or
`undefined`. -/
def Entry.answer (text : JSVal) : Entry :=
  { type := "answer", text := text }

/-- A File of the browser: its name and its bytes. -/
structure File where
  name : String
  bytes : List Nat

/-- The object `{ success, message }` held in `uploadStatus`. -/
structure UploadStatus where
  success : Bool
  message : JSVal

/-- The six `useState` cells of the component.  `file` and `uploadStatus` are
`none` for `null` (and for the `undefined` an empty file list gives). -/
structure State where
  question : String
  answerList : List Entry
  file : Option File
  uploadStatus : Option UploadStatus
  isUploading : Bool
  hasDocument : JSVal

/-- The state of the first render: the initial values passed to `useState`. -/
def State.initial : State :=
  { question := "", answerList := [], file := none, uploadStatus := none,
    isUploading := false, hasDocument := .bool false }

/-! ## Requests and effects -/

/-- The `body` option of a `fetch` call. -/
inductive Body where
  | absent
  | formData (fields : List (String × File))
  | value (v : JSVal)

/-- The arguments of a `fetch` call. -/
structure Request where
  url : String
  method : String
  headers : List (String × String)
  body : Body

/-- How a `fetch` followed by `response.json()` settles: the `fetch` promise
rejects, or it resolves with a response whose `ok` flag is given and whose body
decodes to `body` (`none` when `response.json()` rejects). -/
inductive FetchResult where
  | rejected
  | resolved (ok : Bool) (body : Option JSVal)

/-- What a handler does, one call at a time. -/
inductive Effect where
  | setQuestion (q : String)
  | setAnswerList (l : List Entry)
  | appendAnswerList (e : Entry)
  | setFile (f : Option File)
  | setUploadStatus (u : Option UploadStatus)
  | setIsUploading (b : Bool)
  | setHasDocument (v : JSVal)
  | fetch (r : Request)
  | clearFileInput
  | consoleError
  | preventDefault

/-- One effect on the state.  `appendAnswerList e` is the functional update
`setAnswerList((prev) => [...prev, e])`; the last four do not touch the state. -/
def applyEffect (s : State) : Effect → State
  | .setQuestion q => { s with question := q }
  | .setAnswerList l => { s with answerList := l }
  | .appendAnswerList e => { s with answerList := s.answerList ++ [e] }
  | .setFile f => { s with file := f }
  | .setUploadStatus u => { s with uploadStatus := u }
  | .setIsUploading b => { s with isUploading := b }
  | .setHasDocument v => { s with hasDocument := v }
  | .fetch _ => s
  | .clearFileInput => s
  | .consoleError => s
  | .preventDefault => s

/-- The state after a list of effects, applied in order. -/
def applyEffects (s : State) (es : List Effect) : State :=
  es.foldl applyEffect s

/-- The network requests among a list of effects. -/
def requests : List Effect → List Request
  | [] => []
  | .fetch r :: rest => r :: requests rest
  | _ :: rest => requests rest

/-- The number of `setUploadStatus` calls among a list of effects. -/
def uploadStatusWrites : List Effect → Nat
  | [] => 0
  | .setUploadStatus _ :: rest => uploadStatusWrites rest + 1
  | _ :: rest => uploadStatusWrites rest

/-! ## The handlers -/

/-- The function `checkStatus` up to its first `await`. -/
def checkStatus : List Effect :=
  [.fetch { url := "http://127.0.0.1:8000/status", method := "GET", headers := [],
            body := .absent }]

/-- The function `checkStatus` from its first `await` on. -/
def checkStatusResume : FetchResult → List Effect
  | .rejected => [.consoleError]
  | .resolved _ none => [.consoleError]
  | .resolved _ (some data) =>
    match getProp data "has_document" with
    | none => [.consoleError]
    | some v => [.setHasDocument v]

/-- The handler `handleFileChange`, also the body of `onDrop`: `files` is the
file list of the event. -/
def handleFileChange (files : List File) : List Effect :=
  [.setFile files.head?, .setUploadStatus none]

/-- The function `handleUpload` up to its first `await`. -/
def handleUpload (s : State) : List Effect :=
  match s.file with
  | none =>
    [.setUploadStatus (some { success := false, message := .str "Please select a file." })]
  | some file =>
    [.setIsUploading true,
     .fetch { url := "http://127.0.0.1:8000/upload", method := "POST", headers := [],
              body := .formData [("file", file)] }]

/-- The branch of `handleUpload` taken when `response.ok && data.success` is
truthy, `message` being `data.message`.  The file input is rendered
unconditionally, so resetting it by its id does not throw. -/
def uploadSuccessEffects (message : JSVal) : List Effect :=
  [.setUploadStatus (some { success := true, message := message }),
   .setHasDocument (.bool true), .setFile none, .clearFileInput]

/-- The `else` branch of `handleUpload`, `detail` being `data.detail`: the
message is `data.detail || "Upload failed"`. -/
def uploadFailureEffects (detail : JSVal) : List Effect :=
  [.setUploadStatus
    (some { success := false,
            message := if truthy detail then detail else .str "Upload failed" })]

/-- The `try` block of `handleUpload` once the body is decoded; `none` when a
property read throws.  The condition is `response.ok && data.success`, which
reads `data.success` only when `response.ok` holds. -/
def uploadTry (ok : Bool) (data : JSVal) : Option (List Effect) := do
  let cond ← if ok then (getProp data "success").map truthy else some false
  if cond then
    let message ← getProp data "message"
    some (uploadSuccessEffects message)
  else
    let detail ← getProp data "detail"
    some (uploadFailureEffects detail)

/-- The `catch` block of `handleUpload`. -/
def uploadCatch : List Effect :=
  [.setUploadStatus (some { success := false, message := .str "Upload error" })]

/-- The function `handleUpload` from its first `await` on: `try`, `catch`,
`finally`. -/
def handleUploadResume (r : FetchResult) : List Effect :=
  (match r with
   | .rejected => uploadCatch
   | .resolved _ none => uploadCatch
   | .resolved ok (some data) => (uploadTry ok data).getD uploadCatch)
  ++ [.setIsUploading false]

/-- The request `handleAsk` sends for a question. -/
def askRequest (currentQuestion : String) : Request :=
  { url := "http://127.0.0.1:8000/ask", method := "POST",
    headers := [("Content-Type", "application/json")],
    body := .value (JSON.stringify (.obj [("question", .str currentQuestion)])) }

/-- The function `handleAsk` up to its first `await`. -/
def handleAsk (s : State) : List Effect :=
  if !truthy (.str (trim s.question)) then []
  else
    let currentQuestion := s.question
    [.setAnswerList (s.answerList ++ [Entry.question currentQuestion]),
     .setQuestion "",
     .fetch (askRequest currentQuestion)]

/-- The value of `reply` in `handleAsk` for `data.answer = answer`; `none`
when a property read throws. -/
def replyOf (answer : JSVal) : Option JSVal :=
  if typeof answer = "object" && notNull answer then do
    let result ← getProp answer "result"
    if typeof result = "string" then some result else some (JSON.stringify result)
  else
    if typeof answer = "string" then some answer else some (JSON.stringify answer)

/-- The text of the entry the `catch` block of `handleAsk` appends. -/
def askFailureText : String :=
  "❌ Failed to get response from server."

/-- The `catch` block of `handleAsk`. -/
def askCatch : List Effect :=
  [.appendAnswerList (Entry.answer (.str askFailureText))]

/-- The `try` block of `handleAsk` once the body is decoded; `none` when it
throws. -/
def askTry (data : JSVal) : Option (List Effect) := do
  let answer ← getProp data "answer"
  let reply ← replyOf answer
  some [.appendAnswerList (Entry.answer reply)]

/-- The function `handleAsk` from its first `await` on. -/
def handleAskResume : FetchResult → List Effect
  | .rejected => askCatch
  | .resolved _ none => askCatch
  | .resolved _ (some data) => (askTry data).getD askCatch

/-- The handler `handleKeyPress` for a `keydown` event with the given `key` and
`shiftKey`. -/
def handleKeyPress (s : State) (key : String) (shiftKey : Bool) : List Effect :=
  if key = "Enter" && !shiftKey then .preventDefault :: handleAsk s else []

/-! ## The rendered controls -/

/-- The `disabled` attribute of the upload button: `isUploading || !file`. -/
def uploadDisabled (s : State) : Bool :=
  s.isUploading || s.file.isNone

/-- The `disabled` attribute of the textarea: `!hasDocument`. -/
def textareaDisabled (s : State) : Bool :=
  !truthy s.hasDocument

/-- The `disabled` attribute of the send button:
`!hasDocument || !question.trim()`. -/
def sendDisabled (s : State) : Bool :=
  !truthy s.hasDocument || !truthy (.str (trim s.question))

/-- Asking `text`: the user sets the textarea to `text`, then `handleAsk` runs
against that render. -/
def State.ask (s : State) (text : String) : State :=
  applyEffects { s with question := text } (handleAsk { s with question := text })

/-- A click on the send button: a disabled button dispatches no click. -/
def clickSend (s : State) : List Effect :=
  if sendDisabled s then [] else handleAsk s

/-- A key press in the textarea: a disabled textarea dispatches no key event. -/
def keyDown (s : State) (key : String) (shiftKey : Bool) : List Effect :=
  if textareaDisabled s then [] else handleKeyPress s key shiftKey

/-- A click on the upload button: a disabled button dispatches no click. -/
def clickUpload (s : State) : List Effect :=
  if uploadDisabled s then [] else handleUpload s

/-- An edit of the textarea (`onChange`): a disabled textarea cannot be edited. -/
def changeQuestion (s : State) (text : String) : List Effect :=
  if textareaDisabled s then [] else [.setQuestion text]

/-! ## The component with its requests in flight -/

/-- An `async` function suspended at its `await`. -/
inductive Awaiting where
  | checkStatus
  | handleUpload
  | handleAsk

/-- The suspended function is `handleUpload`. -/
def Awaiting.isUpload : Awaiting → Bool
  | .handleUpload => true
  | _ => false

/-- The part of a suspended function that runs when its request settles. -/
def Awaiting.resume : Awaiting → FetchResult → List Effect
  | .checkStatus => checkStatusResume
  | .handleUpload => handleUploadResume
  | .handleAsk => handleAskResume

/-- The mounted component: its state, the suspended calls in issue order, and
every request sent so far. -/
structure System where
  state : State
  pending : List Awaiting
  sent : List Request

/-- What can happen next: a user event on a control, or the settlement of the
pending call at position `i`. -/
inductive Event where
  | selectFiles (files : List File)
  | clickUpload
  | changeQuestion (text : String)
  | keyDown (key : String) (shiftKey : Bool)
  | clickSend
  | settle (i : Nat) (r : FetchResult)

/-- Run the synchronous part of a call of `caller`: apply its effects, record its
requests, and suspend it once for each request. -/
def System.perform (sys : System) (caller : Awaiting) (es : List Effect) : System :=
  { state := applyEffects sys.state es,
    pending := sys.pending ++ (requests es).map (fun _ => caller),
    sent := sys.sent ++ requests es }

/-- One event.  Every handler runs against the state of the latest render. -/
def System.step (sys : System) : Event → System
  | .selectFiles files => { sys with state := applyEffects sys.state (handleFileChange files) }
  | .clickUpload => sys.perform .handleUpload (clickUpload sys.state)
  | .changeQuestion text =>
    { sys with state := applyEffects sys.state (changeQuestion sys.state text) }
  | .keyDown key shiftKey => sys.perform .handleAsk (keyDown sys.state key shiftKey)
  | .clickSend => sys.perform .handleAsk (clickSend sys.state)
  | .settle i r =>
    match sys.pending.get? i with
    | none => sys
    | some caller =>
      { state := applyEffects sys.state (caller.resume r),
        pending := sys.pending.eraseIdx i,
        sent := sys.sent }

/-- The component after mounting: the first render, and `checkStatus()` called
by the mount effect. -/
def System.mounted : System :=
  System.perform { state := State.initial, pending := [], sent := [] } .checkStatus checkStatus

/-- The component after a sequence of events, starting from `sys`. -/
def System.runFrom (sys : System) (events : List Event) : System :=
  events.foldl System.step sys

/-- The component after a sequence of events since mounting. -/
def System.run (events : List Event) : System :=
  System.mounted.runFrom events

/-- The number of suspended `handleUpload` calls. -/
def System.uploadsInFlight (sys : System) : Nat :=
  sys.pending.countP Awaiting.isUpload

/-- The in-flight flag agrees with the suspended calls: `isUploading` is true
exactly while one call of `handleUpload` is suspended, and there is never more
than one. -/
def System.flagMatchesInFlight (sys : System) : Prop :=
  sys.uploadsInFlight = if sys.state.isUploading then 1 else 0

/-! ## Auxiliary facts -/

theorem trimChars_eq_nil_iff (cs : List Char) :
    trimChars cs = [] ↔ cs.all isWhiteSpace = true := by
  unfold trimChars
  rw [List.reverse_eq_nil_iff, List.dropWhile_eq_nil_iff, List.all_eq_true]
  constructor
  · intro h
    by_cases hnil : cs.dropWhile isWhiteSpace = []
    · exact List.dropWhile_eq_nil_iff.mp hnil
    · exfalso
      have hhead := List.head_dropWhile_not isWhiteSpace cs hnil
      have hmem : (cs.dropWhile isWhiteSpace).head hnil ∈ (cs.dropWhile isWhiteSpace).reverse :=
        List.mem_reverse.mpr (List.head_mem hnil)
      rw [h _ hmem] at hhead
      exact Bool.noConfusion hhead
  · intro h x hx
    have hnil : cs.dropWhile isWhiteSpace = [] := List.dropWhile_eq_nil_iff.mpr h
    rw [hnil] at hx
    simp at hx

theorem truthy_trim (q : String) : truthy (.str (trim q)) = !blank q := by
  have h := trimChars_eq_nil_iff q.data
  by_cases hb : q.data.all isWhiteSpace = true
  · have hnil := h.mpr hb
    simp [truthy, trim, blank, hnil, hb]
  · have hne : trimChars q.data ≠ [] := fun hnil => hb (h.mp hnil)
    simp only [Bool.not_eq_true] at hb
    simp only [truthy, trim, blank, hb, Bool.not_false, bne_iff_ne, ne_eq]
    intro hEq
    exact hne (congrArg String.data hEq)

theorem typeof_undefined : typeof .undefined = "undefined" := rfl

theorem typeof_null : typeof .null = "object" := rfl

theorem typeof_bool (b : Bool) : typeof (.bool b) = "boolean" := rfl

theorem typeof_num (text : String) : typeof (.num text) = "number" := rfl

theorem typeof_str (s : String) : typeof (.str s) = "string" := rfl

theorem typeof_arr (items : List JSVal) : typeof (.arr items) = "object" := rfl

theorem typeof_obj (props : List (String × JSVal)) : typeof (.obj props) = "object" := rfl

theorem replyOf_obj (props : List (String × JSVal)) :
    replyOf (.obj props) =
      some (if typeof (lookup "result" props) = "string" then lookup "result" props
            else JSON.stringify (lookup "result" props)) := by
  simp only [replyOf, typeof_obj, notNull, getProp, decide_True, Bool.and_self, if_true,
    Option.bind_eq_bind, Option.some_bind]
  split <;> rfl

theorem replyOf_arr (items : List JSVal) : replyOf (.arr items) = some .undefined := by
  simp only [replyOf, typeof_arr, notNull, getProp, decide_True, Bool.and_self, if_true,
    Option.bind_eq_bind, Option.some_bind, typeof_undefined]
  rfl

theorem replyOf_primitive (answer : JSVal) (h : typeof answer ≠ "object" ∨ answer = .null) :
    replyOf answer =
      some (if typeof answer = "string" then answer else JSON.stringify answer) := by
  cases answer with
  | arr items => simp [typeof_arr] at h
  | obj props => simp [typeof_obj] at h
  | _ => rfl

theorem replyOf_total (answer : JSVal) : ∃ reply, replyOf answer = some reply := by
  cases answer with
  | arr items => exact ⟨_, replyOf_arr items⟩
  | obj props => exact ⟨_, replyOf_obj props⟩
  | _ => exact ⟨_, rfl⟩

theorem handleAsk_blank (s : State) (h : blank s.question = true) : handleAsk s = [] := by
  simp [handleAsk, truthy_trim, h]

theorem handleAsk_not_blank (s : State) (h : blank s.question = false) :
    handleAsk s =
      [.setAnswerList (s.answerList ++ [Entry.question s.question]), .setQuestion "",
       .fetch (askRequest s.question)] := by
  simp [handleAsk, truthy_trim, h]

/-! ## The reply computed in `handleAsk` -/

/-- C1: for an answer that is the object `{result: v}` the reply computed in
`handleAsk` is `v` itself when `v` is a string and `JSON.stringify(v)`
otherwise, and for an answer that is not an object (a string, a number, a
boolean, `null`) it is the answer itself when it is a string and
`JSON.stringify(answer)` otherwise; `handleAsk` appends the entry with that
text. -/
theorem reply_of_result_object_and_of_non_object (v answer : JSVal) (ok : Bool)
    (h : typeof answer ≠ "object" ∨ answer = .null) :
    replyOf (.obj [("result", v)]) =
        some (if typeof v = "string" then v else JSON.stringify v) ∧
      replyOf answer =
        some (if typeof answer = "string" then answer else JSON.stringify answer) ∧
      handleAskResume (.resolved ok (some (.obj [("answer", .obj [("result", v)])]))) =
        [.appendAnswerList
          (Entry.answer (if typeof v = "string" then v else JSON.stringify v))] ∧
      handleAskResume (.resolved ok (some (.obj [("answer", answer)]))) =
        [.appendAnswerList
          (Entry.answer (if typeof answer = "string" then answer else JSON.stringify answer))] := by
  have h1 : replyOf (.obj [("result", v)]) =
      some (if typeof v = "string" then v else JSON.stringify v) := by
    rw [replyOf_obj]
    rfl
  have h2 := replyOf_primitive answer h
  refine ⟨h1, h2, ?_, ?_⟩
  · have hget : getProp (.obj [("answer", .obj [("result", v)])]) "answer" =
        some (.obj [("result", v)]) := rfl
    simp only [handleAskResume, askTry, hget, h1, Option.bind_eq_bind, Option.some_bind,
      Option.getD_some]
  · have hget : getProp (.obj [("answer", answer)]) "answer" = some answer := rfl
    simp only [handleAskResume, askTry, hget, h2, Option.bind_eq_bind, Option.some_bind,
      Option.getD_some]

/-- Witness of C1 at `v = 42` and the answer `true`. -/
theorem reply_of_result_object_and_of_non_object_witness :
    (typeof (.bool true) ≠ "object" ∨ JSVal.bool true = .null) ∧
      replyOf (.obj [("result", .num "42")]) = some (.str "42") ∧
      replyOf (.bool true) = some (.str "true") :=
  ⟨Or.inl (by decide),
   (reply_of_result_object_and_of_non_object (.num "42") (.bool true) true
      (Or.inl (by decide))).1,
   (reply_of_result_object_and_of_non_object (.num "42") (.bool true) true
      (Or.inl (by decide))).2.1⟩

/-- C2, as stated, fails on the empty array: the reply is `undefined`, not the
text `[]` that `JSON.stringify` gives for the array. -/
theorem reply_of_array_not_serialized :
    replyOf (.arr []) = some .undefined ∧ JSON.stringify (.arr []) = .str "[]" ∧
      ¬ (replyOf (.arr []) = some (JSON.stringify (.arr []))) := by
  refine ⟨rfl, rfl, ?_⟩
  intro h
  have h2 : replyOf (.arr []) = some .undefined := rfl
  rw [h2] at h
  have h3 : JSON.stringify (.arr []) = .str "[]" := rfl
  rw [h3] at h
  exact JSVal.noConfusion (Option.some.inj h)

/-- C2, amended: for an answer that is an array, and for an answer that is an
object without a `result` property, the reply is `JSON.stringify` of the
missing `result` property, which is `undefined`; for an answer that is absent,
`null`, a boolean or a number the reply is `JSON.stringify(answer)`. -/
theorem reply_of_array_and_of_rest (items : List JSVal) (props : List (String × JSVal))
    (b : Bool) (text : String) (h : lookup "result" props = .undefined) :
    replyOf (.arr items) = some (JSON.stringify .undefined) ∧
      replyOf (.arr items) = some .undefined ∧
      replyOf (.obj props) = some .undefined ∧
      replyOf .undefined = some (JSON.stringify .undefined) ∧
      replyOf .null = some (JSON.stringify .null) ∧
      replyOf (.bool b) = some (JSON.stringify (.bool b)) ∧
      replyOf (.num text) = some (JSON.stringify (.num text)) := by
  refine ⟨replyOf_arr items, replyOf_arr items, ?_, rfl, rfl, rfl, rfl⟩
  rw [replyOf_obj, h]
  rfl

/-- Witness of the amended C2 at the array `[1]` and the object `{text: "a"}`. -/
theorem reply_of_array_and_of_rest_witness :
    lookup "result" [("text", JSVal.str "a")] = .undefined ∧
      replyOf (.arr [.num "1"]) = some .undefined ∧
      replyOf (.obj [("text", .str "a")]) = some .undefined :=
  ⟨rfl,
   (reply_of_array_and_of_rest [.num "1"] [("text", .str "a")] true "0" rfl).2.1,
   (reply_of_array_and_of_rest [.num "1"] [("text", .str "a")] true "0" rfl).2.2.1⟩

/-! ## Asking a question -/

/-- C3, as stated, fails: with `hasDocument` false and the question "hi",
`handleAsk` appends the question to the log and sends a request. -/
theorem handleAsk_ignores_hasDocument :
    truthy ({ State.initial with question := "hi" } : State).hasDocument = false ∧
      (applyEffects { State.initial with question := "hi" }
          (handleAsk { State.initial with question := "hi" })).answerList =
        [Entry.question "hi"] ∧
      requests (handleAsk { State.initial with question := "hi" }) = [askRequest "hi"] := by
  refine ⟨rfl, ?_, ?_⟩
  · rw [handleAsk_not_blank _ (by decide)]
    rfl
  · rw [handleAsk_not_blank _ (by decide)]
    rfl

/-- C3, amended: while `hasDocument` is falsy the send button and the textarea
are disabled, so a click on the button and a key press in the textarea perform
nothing: the state, the conversation log included, is unchanged and no request
is sent. -/
theorem no_ask_without_document (s : State) (key : String) (shiftKey : Bool)
    (h : truthy s.hasDocument = false) :
    clickSend s = [] ∧ keyDown s key shiftKey = [] ∧
      applyEffects s (clickSend s) = s ∧ applyEffects s (keyDown s key shiftKey) = s ∧
      requests (clickSend s) = [] ∧ requests (keyDown s key shiftKey) = [] := by
  have h1 : clickSend s = [] := by simp [clickSend, sendDisabled, h]
  have h2 : keyDown s key shiftKey = [] := by simp [keyDown, textareaDisabled, h]
  rw [h1, h2]
  exact ⟨rfl, rfl, rfl, rfl, rfl, rfl⟩

/-- Witness of the amended C3 at the first render with the question "hi". -/
theorem no_ask_without_document_witness :
    truthy ({ State.initial with question := "hi" } : State).hasDocument = false ∧
      clickSend { State.initial with question := "hi" } = [] ∧
      keyDown { State.initial with question := "hi" } "Enter" false = [] :=
  ⟨rfl,
   (no_ask_without_document { State.initial with question := "hi" } "Enter" false rfl).1,
   (no_ask_without_document { State.initial with question := "hi" } "Enter" false rfl).2.1⟩

/-- C4: for a question that is empty or white space only, `handleAsk` performs
nothing: every state field is unchanged and no request is sent. -/
theorem handleAsk_blank_noop (s : State) (h : blank s.question = true) :
    handleAsk s = [] ∧ applyEffects s (handleAsk s) = s ∧ requests (handleAsk s) = [] := by
  rw [handleAsk_blank s h]
  exact ⟨rfl, rfl, rfl⟩

/-- Witness of C4 at a question of three spaces, with a document and a log. -/
theorem handleAsk_blank_noop_witness :
    blank "   " = true ∧
      applyEffects
          { State.initial with
            question := "   ", hasDocument := .bool true, answerList := [Entry.question "a"] }
          (handleAsk
            { State.initial with
              question := "   ", hasDocument := .bool true,
              answerList := [Entry.question "a"] }) =
        { State.initial with
          question := "   ", hasDocument := .bool true, answerList := [Entry.question "a"] } :=
  ⟨by decide,
   (handleAsk_blank_noop
      { State.initial with
        question := "   ", hasDocument := .bool true, answerList := [Entry.question "a"] }
      (by decide)).2.1⟩

/-- C5, as stated, fails: for the question " hi " the entry appended holds the
text " hi " as typed, not the trimmed text "hi". -/
theorem handleAsk_keeps_untrimmed_text :
    trim " hi " = "hi" ∧
      (applyEffects { State.initial with question := " hi ", hasDocument := .bool true }
          (handleAsk { State.initial with question := " hi ", hasDocument := .bool true })).answerList =
        [Entry.question " hi "] ∧
      ¬ (Entry.question " hi " = Entry.question (trim " hi ")) := by
  refine ⟨by decide, ?_, ?_⟩
  · rw [handleAsk_not_blank _ (by decide)]
    rfl
  · intro h
    have h2 : JSVal.str " hi " = JSVal.str (trim " hi ") := congrArg Entry.text h
    have h3 : " hi " = trim " hi " := JSVal.str.inj h2
    exact absurd h3 (by decide)

/-- C5, amended: for a question that is not white space only, `handleAsk`, before
its request settles, appends to the conversation log exactly one question
entry whose text is the question as typed (not trimmed), sets the pending
question to the empty string, and sends one request whose body is the
serialized object `{question}`; this holds whatever `hasDocument` is. -/
theorem handleAsk_appends_question (s : State) (h : blank s.question = false) :
    handleAsk s =
        [.setAnswerList (s.answerList ++ [Entry.question s.question]), .setQuestion "",
         .fetch (askRequest s.question)] ∧
      (applyEffects s (handleAsk s)).answerList = s.answerList ++ [Entry.question s.question] ∧
      (applyEffects s (handleAsk s)).question = "" ∧
      requests (handleAsk s) = [askRequest s.question] ∧
      (askRequest s.question).body =
        .value (JSON.stringify (.obj [("question", .str s.question)])) := by
  rw [handleAsk_not_blank s h]
  exact ⟨rfl, rfl, rfl, rfl, rfl⟩

/-- Witness of the amended C5 at the question " hi ". -/
theorem handleAsk_appends_question_witness :
    blank " hi " = false ∧
      requests (handleAsk { State.initial with question := " hi ", hasDocument := .bool true }) =
        [askRequest " hi "] :=
  ⟨by decide,
   (handleAsk_appends_question
      { State.initial with question := " hi ", hasDocument := .bool true } (by decide)).2.2.2.1⟩

/-- C7: from a log `L`, asking `q1` and then `q2`, both not blank, before either
request settles leaves the log equal to `L` followed by the question entries of
`q1` and `q2` in that order and nothing else; both requests are sent in that
order, and on the mounted component (with a document, so that the controls are
enabled) both calls are still pending. -/
theorem two_asks_keep_issue_order (s : State) (sys : System) (q1 q2 : String)
    (h1 : blank q1 = false) (h2 : blank q2 = false)
    (hdoc : truthy sys.state.hasDocument = true) :
    ((s.ask q1).ask q2).answerList = s.answerList ++ [Entry.question q1, Entry.question q2] ∧
      requests (handleAsk { s with question := q1 }) ++
          requests (handleAsk { s.ask q1 with question := q2 }) =
        [askRequest q1, askRequest q2] ∧
      (sys.runFrom [.changeQuestion q1, .clickSend, .changeQuestion q2, .clickSend]).state.answerList =
        sys.state.answerList ++ [Entry.question q1, Entry.question q2] ∧
      (sys.runFrom [.changeQuestion q1, .clickSend, .changeQuestion q2, .clickSend]).pending =
        sys.pending ++ [.handleAsk, .handleAsk] ∧
      (sys.runFrom [.changeQuestion q1, .clickSend, .changeQuestion q2, .clickSend]).sent =
        sys.sent ++ [askRequest q1, askRequest q2] := by
  refine ⟨?_, ?_, ?_, ?_, ?_⟩
  · simp only [State.ask]
    rw [handleAsk_not_blank { s with question := q1 } h1, handleAsk_not_blank _ h2]
    simp [applyEffects, applyEffect]
  · simp only [State.ask]
    rw [handleAsk_not_blank { s with question := q1 } h1, handleAsk_not_blank _ h2]
    simp [requests]
  all_goals
    simp [System.runFrom, System.step, System.perform, changeQuestion, clickSend,
      textareaDisabled, sendDisabled, hdoc, applyEffects, applyEffect, truthy_trim, h1, h2,
      handleAsk, requests]

/-- Witness of C7 at the questions "a" and "b", on a log of one entry and on the
component after a successful upload. -/
theorem two_asks_keep_issue_order_witness :
    blank "a" = false ∧ blank "b" = false ∧
      truthy ({ state := { State.initial with hasDocument := .bool true },
                pending := [], sent := [] } : System).state.hasDocument = true ∧
      ((({ State.initial with answerList := [Entry.answer (.str "x")] } : State).ask "a").ask
          "b").answerList =
        [Entry.answer (.str "x")] ++ [Entry.question "a", Entry.question "b"] :=
  ⟨by decide, by decide, rfl,
   (two_asks_keep_issue_order { State.initial with answerList := [Entry.answer (.str "x")] }
      { state := { State.initial with hasDocument := .bool true }, pending := [], sent := [] }
      "a" "b" (by decide) (by decide) rfl).1⟩

/-! ## Uploading a file -/

/-- C8: with no file selected, `handleUpload` sends no request, sets the upload
status to `{success: false, message: "Please select a file."}` and leaves
`isUploading`, `hasDocument` and `file` unchanged. -/
theorem handleUpload_without_file (s : State) (h : s.file = none) :
    requests (handleUpload s) = [] ∧
      uploadStatusWrites (handleUpload s) = 1 ∧
      (applyEffects s (handleUpload s)).uploadStatus =
        some { success := false, message := .str "Please select a file." } ∧
      (applyEffects s (handleUpload s)).isUploading = s.isUploading ∧
      (applyEffects s (handleUpload s)).hasDocument = s.hasDocument ∧
      (applyEffects s (handleUpload s)).file = s.file := by
  have hu : handleUpload s =
      [.setUploadStatus (some { success := false, message := .str "Please select a file." })] := by
    simp [handleUpload, h]
  rw [hu]
  exact ⟨rfl, rfl, rfl, rfl, rfl, rfl⟩

/-- Witness of C8 at the first render. -/
theorem handleUpload_without_file_witness :
    State.initial.file = none ∧ requests (handleUpload State.initial) = [] ∧
      (applyEffects State.initial (handleUpload State.initial)).uploadStatus =
        some { success := false, message := .str "Please select a file." } :=
  ⟨rfl, (handleUpload_without_file State.initial rfl).1,
   (handleUpload_without_file State.initial rfl).2.2.1⟩

theorem countP_eraseIdx_of_get (p : Awaiting → Bool) (l : List Awaiting) (i : Nat) (a : Awaiting)
    (h : l.get? i = some a) :
    (l.eraseIdx i).countP p + (if p a then 1 else 0) = l.countP p := by
  induction l generalizing i with
  | nil => simp at h
  | cons x xs ih =>
    cases i with
    | zero =>
      simp only [List.get?_cons_zero, Option.some.injEq] at h
      subst h
      simp [List.countP_cons]
    | succ n =>
      simp only [List.get?_cons_succ] at h
      have := ih n h
      simp only [List.eraseIdx_cons_succ, List.countP_cons]
      omega

theorem applyEffects_append (s : State) (es fs : List Effect) :
    applyEffects s (es ++ fs) = applyEffects (applyEffects s es) fs := by
  simp [applyEffects, List.foldl_append]

theorem uploadTry_of_fields (ok : Bool) (data success message detail : JSVal)
    (hs : getProp data "success" = some success) (hm : getProp data "message" = some message)
    (hd : getProp data "detail" = some detail) :
    uploadTry ok data =
      some (if ok && truthy success then uploadSuccessEffects message
            else uploadFailureEffects detail) := by
  cases ok <;> cases hc : truthy success <;>
    simp [uploadTry, hs, hm, hd, hc, uploadSuccessEffects, uploadFailureEffects]

theorem uploadTry_null (ok : Bool) : uploadTry ok .null = none := by
  cases ok <;> rfl

theorem uploadTry_undefined (ok : Bool) : uploadTry ok .undefined = none := by
  cases ok <;> rfl

theorem uploadStatusWrites_append (es fs : List Effect) :
    uploadStatusWrites (es ++ fs) = uploadStatusWrites es + uploadStatusWrites fs := by
  induction es with
  | nil => simp [uploadStatusWrites]
  | cons e es ih =>
    cases e <;> simp [uploadStatusWrites, ih]
    omega

theorem requests_append (es fs : List Effect) :
    requests (es ++ fs) = requests es ++ requests fs := by
  induction es with
  | nil => simp [requests]
  | cons e es ih => cases e <;> simp [requests, ih]

theorem uploadTry_spec (ok : Bool) (data : JSVal) (es : List Effect)
    (h : uploadTry ok data = some es) :
    uploadStatusWrites es = 1 ∧ requests es = [] ∧
      ∀ s, (applyEffects s es).isUploading = s.isUploading := by
  have main : ∀ sv m d, getProp data "success" = some sv → getProp data "message" = some m →
      getProp data "detail" = some d →
      uploadStatusWrites es = 1 ∧ requests es = [] ∧
        ∀ s, (applyEffects s es).isUploading = s.isUploading := by
    intro sv m d hs hm hd
    rw [uploadTry_of_fields ok data sv m d hs hm hd] at h
    have h2 := Option.some.inj h
    subst h2
    split <;> exact ⟨rfl, rfl, fun _ => rfl⟩
  cases data with
  | undefined => rw [uploadTry_undefined] at h; cases h
  | null => rw [uploadTry_null] at h; cases h
  | obj props => exact main _ _ _ rfl rfl rfl
  | _ => exact main _ _ _ rfl rfl rfl

theorem uploadCatch_spec :
    uploadStatusWrites uploadCatch = 1 ∧ requests uploadCatch = [] ∧
      ∀ s, (applyEffects s uploadCatch).isUploading = s.isUploading :=
  ⟨rfl, rfl, fun _ => rfl⟩

theorem handleUploadResume_spec (r : FetchResult) :
    uploadStatusWrites (handleUploadResume r) = 1 ∧ requests (handleUploadResume r) = [] ∧
      ∀ s, (applyEffects s (handleUploadResume r)).isUploading = false := by
  have key : ∀ es : List Effect,
      (uploadStatusWrites es = 1 ∧ requests es = [] ∧
        ∀ s, (applyEffects s es).isUploading = s.isUploading) →
      uploadStatusWrites (es ++ [.setIsUploading false]) = 1 ∧
        requests (es ++ [.setIsUploading false]) = [] ∧
        ∀ s, (applyEffects s (es ++ [.setIsUploading false])).isUploading = false := by
    intro es ⟨h1, h2, _⟩
    refine ⟨?_, ?_, ?_⟩
    · rw [uploadStatusWrites_append, h1]
      rfl
    · rw [requests_append, h2]
      rfl
    · intro s
      rw [applyEffects_append]
      rfl
  unfold handleUploadResume
  apply key
  cases r with
  | rejected => exact uploadCatch_spec
  | resolved ok body =>
    cases body with
    | none => exact uploadCatch_spec
    | some data =>
      cases ht : uploadTry ok data with
      | none =>
        simp only [ht, Option.getD_none]
        exact uploadCatch_spec
      | some es =>
        simp only [ht, Option.getD_some]
        exact uploadTry_spec ok data es ht

theorem askTry_of_answer (data answer : JSVal) (h : getProp data "answer" = some answer) :
    ∃ reply, replyOf answer = some reply ∧
      askTry data = some [.appendAnswerList (Entry.answer reply)] := by
  obtain ⟨reply, hr⟩ := replyOf_total answer
  exact ⟨reply, hr, by simp [askTry, h, hr]⟩

theorem handleAskResume_spec (r : FetchResult) :
    ∃ text, handleAskResume r = [.appendAnswerList (Entry.answer text)] := by
  cases r with
  | rejected => exact ⟨_, rfl⟩
  | resolved ok body =>
    cases body with
    | none => exact ⟨_, rfl⟩
    | some data =>
      cases hg : getProp data "answer" with
      | none =>
        refine ⟨.str askFailureText, ?_⟩
        simp [handleAskResume, askTry, hg, askCatch]
      | some answer =>
        obtain ⟨reply, _, ht⟩ := askTry_of_answer data answer hg
        exact ⟨reply, by simp [handleAskResume, ht]⟩

theorem checkStatusResume_isUploading (r : FetchResult) (s : State) :
    (applyEffects s (checkStatusResume r)).isUploading = s.isUploading ∧
      requests (checkStatusResume r) = [] := by
  cases r with
  | rejected => exact ⟨rfl, rfl⟩
  | resolved ok body =>
    cases body with
    | none => exact ⟨rfl, rfl⟩
    | some data =>
      cases hg : getProp data "has_document" with
      | none => simp [checkStatusResume, hg, applyEffects, applyEffect, requests]
      | some v => simp [checkStatusResume, hg, applyEffects, applyEffect, requests]

theorem handleAsk_isUploading (s : State) :
    (applyEffects s (handleAsk s)).isUploading = s.isUploading := by
  cases hb : blank s.question
  · rw [handleAsk_not_blank s hb]
    rfl
  · rw [handleAsk_blank s hb]
    rfl

theorem uploadsInFlight_perform_handleAsk (sys : System) (es : List Effect) :
    (sys.perform .handleAsk es).uploadsInFlight = sys.uploadsInFlight := by
  simp [System.perform, System.uploadsInFlight, List.countP_append, List.countP_eq_zero,
    Awaiting.isUpload]

theorem clickSend_isUploading (s : State) :
    (applyEffects s (clickSend s)).isUploading = s.isUploading := by
  unfold clickSend
  split
  · rfl
  · exact handleAsk_isUploading s

theorem keyDown_isUploading (s : State) (key : String) (shiftKey : Bool) :
    (applyEffects s (keyDown s key shiftKey)).isUploading = s.isUploading := by
  unfold keyDown handleKeyPress
  split
  · rfl
  · split
    · exact handleAsk_isUploading s
    · rfl

theorem step_settle_none (sys : System) (i : Nat) (r : FetchResult)
    (h : sys.pending.get? i = none) : sys.step (.settle i r) = sys := by
  simp only [System.step, h]

theorem step_settle_some (sys : System) (i : Nat) (r : FetchResult) (caller : Awaiting)
    (h : sys.pending.get? i = some caller) :
    sys.step (.settle i r) =
      { state := applyEffects sys.state (caller.resume r),
        pending := sys.pending.eraseIdx i,
        sent := sys.sent } := by
  simp only [System.step, h]

theorem step_flagMatchesInFlight (sys : System) (e : Event) (h : sys.flagMatchesInFlight) :
    (sys.step e).flagMatchesInFlight := by
  unfold System.flagMatchesInFlight at h ⊢
  cases e with
  | selectFiles files => exact h
  | clickUpload =>
    cases hd : uploadDisabled sys.state
    · simp only [uploadDisabled, Bool.or_eq_false_iff] at hd
      obtain ⟨hup, hfile⟩ := hd
      obtain ⟨file, hf⟩ : ∃ file, sys.state.file = some file := by
        cases hf : sys.state.file with
        | none => simp [hf] at hfile
        | some file => exact ⟨file, rfl⟩
      rw [hup] at h
      simp only [Bool.false_eq_true, if_false] at h
      simp [System.step, clickUpload, uploadDisabled, hup, hf, handleUpload, System.perform,
        System.uploadsInFlight, requests, applyEffects, applyEffect, List.countP_append,
        Awaiting.isUpload] at h ⊢
      exact h
    · simp only [System.step, clickUpload, hd, if_true]
      simpa [System.perform, System.uploadsInFlight, requests, applyEffects] using h
  | changeQuestion text =>
    simp only [System.step, changeQuestion]
    split
    · exact h
    · exact h
  | keyDown key shiftKey =>
    simp only [System.step, uploadsInFlight_perform_handleAsk]
    rw [h]
    simp only [System.perform, keyDown_isUploading]
  | clickSend =>
    simp only [System.step, uploadsInFlight_perform_handleAsk]
    rw [h]
    simp only [System.perform, clickSend_isUploading]
  | settle i r =>
    cases hg : sys.pending.get? i with
    | none =>
      rw [step_settle_none sys i r hg]
      exact h
    | some caller =>
      rw [step_settle_some sys i r caller hg]
      have hc := countP_eraseIdx_of_get Awaiting.isUpload sys.pending i caller hg
      simp only [System.uploadsInFlight] at h ⊢
      cases caller with
      | checkStatus =>
        simp only [Awaiting.resume, (checkStatusResume_isUploading r sys.state).1]
        simp only [Awaiting.isUpload, Bool.false_eq_true, if_false, Nat.add_zero] at hc
        rw [hc]
        exact h
      | handleAsk =>
        obtain ⟨text, ht⟩ := handleAskResume_spec r
        simp only [Awaiting.resume, ht]
        simp only [Awaiting.isUpload, Bool.false_eq_true, if_false, Nat.add_zero] at hc
        rw [hc]
        exact h
      | handleUpload =>
        simp only [Awaiting.resume, (handleUploadResume_spec r).2.2 sys.state]
        simp only [Awaiting.isUpload, if_true] at hc
        simp only [Bool.false_eq_true, if_false]
        split at h <;> omega

theorem runFrom_flagMatchesInFlight (events : List Event) (sys : System)
    (h : sys.flagMatchesInFlight) : (sys.runFrom events).flagMatchesInFlight := by
  induction events generalizing sys with
  | nil => exact h
  | cons e es ih => exact ih (sys.step e) (step_flagMatchesInFlight sys e h)

theorem mounted_flagMatchesInFlight : System.mounted.flagMatchesInFlight := by
  show System.mounted.uploadsInFlight = _
  rfl

theorem handleUploadResume_of_fields (ok : Bool) (data success message detail : JSVal)
    (hs : getProp data "success" = some success) (hm : getProp data "message" = some message)
    (hd : getProp data "detail" = some detail) :
    handleUploadResume (.resolved ok (some data)) =
      (if ok && truthy success then uploadSuccessEffects message
       else uploadFailureEffects detail) ++ [.setIsUploading false] := by
  simp only [handleUploadResume, uploadTry_of_fields ok data success message detail hs hm hd,
    Option.getD_some]

theorem upload_pending_flag (sys : System) (i : Nat) (h : sys.flagMatchesInFlight)
    (hp : sys.pending.get? i = some .handleUpload) :
    sys.state.isUploading = true ∧ sys.uploadsInFlight = 1 := by
  have hc := countP_eraseIdx_of_get Awaiting.isUpload sys.pending i .handleUpload hp
  simp only [Awaiting.isUpload, if_true] at hc
  unfold System.flagMatchesInFlight System.uploadsInFlight at h
  unfold System.uploadsInFlight
  cases hu : sys.state.isUploading
  · rw [hu] at h
    simp only [Bool.false_eq_true, if_false] at h
    omega
  · rw [hu] at h
    simp only [if_true] at h
    exact ⟨rfl, h⟩

/-- C9: an upload attempt with a file selected sets `isUploading` to true when
it is issued, together with its one request and without writing the upload
status.  On the mounted component, after any sequence of events, `isUploading`
is true exactly while a call of `handleUpload` is suspended, and there is never
more than one: while the attempt at position `i` is pending the flag is true.
When the attempt completes, however the request settled (success reported by
the service, failure reported or a status that is not 2xx, transport failure),
`isUploading` is false, no attempt is left in flight, and the upload status has
been written exactly once. -/
theorem upload_flag_from_issue_to_completion (events : List Event) (s : State) (file : File)
    (r : FetchResult) (i : Nat)
    (h : (System.run events).pending.get? i = some .handleUpload) :
    (applyEffects { s with file := some file }
        (handleUpload { s with file := some file })).isUploading = true ∧
      (requests (handleUpload { s with file := some file })).length = 1 ∧
      uploadStatusWrites (handleUpload { s with file := some file }) = 0 ∧
      (System.run events).uploadsInFlight =
        (if (System.run events).state.isUploading then 1 else 0) ∧
      (System.run events).state.isUploading = true ∧
      ((System.run events).step (.settle i r)).state.isUploading = false ∧
      ((System.run events).step (.settle i r)).uploadsInFlight = 0 ∧
      (applyEffects s (handleUploadResume r)).isUploading = false ∧
      uploadStatusWrites (handleUploadResume r) = 1 ∧
      requests (handleUploadResume r) = [] := by
  have hinv := runFrom_flagMatchesInFlight events System.mounted mounted_flagMatchesInFlight
  have hinv2 := step_flagMatchesInFlight (System.run events) (.settle i r) hinv
  have hflag := upload_pending_flag (System.run events) i hinv h
  have hafter : ((System.run events).step (.settle i r)).state.isUploading = false := by
    rw [step_settle_some _ i r .handleUpload h]
    exact (handleUploadResume_spec r).2.2 _
  refine ⟨rfl, rfl, rfl, hinv, hflag.1, hafter, ?_, (handleUploadResume_spec r).2.2 s,
    (handleUploadResume_spec r).1, (handleUploadResume_spec r).2.1⟩
  unfold System.flagMatchesInFlight at hinv2
  rw [hinv2, hafter]
  rfl

/-- Witness of C9: after selecting `notes.txt` and clicking the upload button the
attempt is pending at position 1, behind the status query. -/
theorem upload_flag_from_issue_to_completion_witness :
    (System.run
        [.selectFiles [{ name := "notes.txt", bytes := [104, 105] }], .clickUpload]).pending.get? 1 =
        some .handleUpload ∧
      (System.run
        [.selectFiles [{ name := "notes.txt", bytes := [104, 105] }],
         .clickUpload]).state.isUploading = true ∧
      ((System.run
        [.selectFiles [{ name := "notes.txt", bytes := [104, 105] }], .clickUpload]).step
          (.settle 1 .rejected)).state.isUploading = false :=
  ⟨rfl,
   (upload_flag_from_issue_to_completion
      [.selectFiles [{ name := "notes.txt", bytes := [104, 105] }], .clickUpload]
      State.initial { name := "notes.txt", bytes := [104, 105] } .rejected 1 rfl).2.2.2.2.1,
   (upload_flag_from_issue_to_completion
      [.selectFiles [{ name := "notes.txt", bytes := [104, 105] }], .clickUpload]
      State.initial { name := "notes.txt", bytes := [104, 105] } .rejected 1 rfl).2.2.2.2.2.1⟩

/-- C10, as stated, fails on two decodable bodies: for the body `null` the
upload status message is "Upload error", not the fallback "Upload failed"; and
for a body whose `detail` is present but is the empty string the message is
"Upload failed", not the detail. -/
theorem upload_message_not_detail_when_present :
    (applyEffects State.initial
        (handleUploadResume (.resolved true (some .null)))).uploadStatus =
        some { success := false, message := .str "Upload error" } ∧
      ¬ (JSVal.str "Upload error" = JSVal.str "Upload failed") ∧
      lookup "detail" [("success", JSVal.bool false), ("detail", JSVal.str "")] = .str "" ∧
      (applyEffects State.initial
        (handleUploadResume
          (.resolved true
            (some (.obj [("success", .bool false), ("detail", .str "")]))))).uploadStatus =
        some { success := false, message := .str "Upload failed" } ∧
      ¬ (JSVal.str "Upload failed" = JSVal.str "") := by
  refine ⟨rfl, ?_, rfl, rfl, ?_⟩
  · intro h
    exact absurd (JSVal.str.inj h) (by decide)
  · intro h
    exact absurd (JSVal.str.inj h) (by decide)

/-- C10, amended: for an upload response whose decoded body is not `null`, with
fields `success`, `message` and `detail` (`undefined` when missing): if the HTTP
status is 2xx and `success` is truthy, the upload status becomes
`{success: true, message}`, `hasDocument` becomes true and the file is
cleared; otherwise the upload status becomes `{success: false, message}` with
the detail when it is truthy and "Upload failed" when it is missing or falsy,
and `hasDocument` and the file are unchanged.  For the decoded body `null` the
upload status becomes `{success: false, message: "Upload error"}`, with
`hasDocument` and the file unchanged. -/
theorem upload_response_outcome (s : State) (ok : Bool) (data success message detail : JSVal)
    (hs : getProp data "success" = some success) (hm : getProp data "message" = some message)
    (hd : getProp data "detail" = some detail) :
    ((ok = true ∧ truthy success = true) →
        (applyEffects s (handleUploadResume (.resolved ok (some data)))).uploadStatus =
            some { success := true, message := message } ∧
          (applyEffects s (handleUploadResume (.resolved ok (some data)))).hasDocument =
            .bool true ∧
          (applyEffects s (handleUploadResume (.resolved ok (some data)))).file = none) ∧
      (¬ (ok = true ∧ truthy success = true) →
        (applyEffects s (handleUploadResume (.resolved ok (some data)))).uploadStatus =
            some { success := false,
                   message := if truthy detail then detail else .str "Upload failed" } ∧
          (applyEffects s (handleUploadResume (.resolved ok (some data)))).hasDocument =
            s.hasDocument ∧
          (applyEffects s (handleUploadResume (.resolved ok (some data)))).file = s.file) ∧
      (applyEffects s (handleUploadResume (.resolved ok (some .null)))).uploadStatus =
        some { success := false, message := .str "Upload error" } ∧
      (applyEffects s (handleUploadResume (.resolved ok (some .null)))).hasDocument =
        s.hasDocument ∧
      (applyEffects s (handleUploadResume (.resolved ok (some .null)))).file = s.file := by
  rw [handleUploadResume_of_fields ok data success message detail hs hm hd]
  refine ⟨?_, ?_, ?_, ?_, ?_⟩
  · rintro ⟨hok, ht⟩
    simp only [hok, ht, Bool.and_self, if_true]
    exact ⟨rfl, rfl, rfl⟩
  · intro hn
    have hc : (ok && truthy success) = false := by
      cases ok <;> cases hts : truthy success <;> simp_all
    simp only [hc, Bool.false_eq_true, if_false]
    exact ⟨rfl, rfl, rfl⟩
  all_goals
    simp only [handleUploadResume, uploadTry_null, Option.getD_none]
    rfl

/-- Witness of the amended C10 at the 2xx response
`{success: true, message: "Indexed 10 chunks"}` with `notes.txt` selected. -/
theorem upload_response_outcome_witness :
    getProp (.obj [("success", .bool true), ("message", .str "Indexed 10 chunks")]) "success" =
        some (.bool true) ∧
      (applyEffects
          { State.initial with file := some { name := "notes.txt", bytes := [104, 105] } }
          (handleUploadResume
            (.resolved true
              (some (.obj [("success", .bool true),
                           ("message", .str "Indexed 10 chunks")]))))).uploadStatus =
        some { success := true, message := .str "Indexed 10 chunks" } :=
  ⟨rfl,
   ((upload_response_outcome
      { State.initial with file := some { name := "notes.txt", bytes := [104, 105] } } true
      (.obj [("success", .bool true), ("message", .str "Indexed 10 chunks")])
      (.bool true) (.str "Indexed 10 chunks") .undefined rfl rfl rfl).1 ⟨rfl, rfl⟩).1⟩

/-! ## Settlement of an ask request -/

/-- C6, as stated, fails on the decodable body `null`: the request succeeded,
yet the entry appended holds the failure text and not the reply for an absent
answer, which is `JSON.stringify(undefined)`. -/
theorem null_body_answers_failure_text :
    (applyEffects State.initial
        (handleAskResume (.resolved true (some .null)))).answerList =
        [Entry.answer (.str askFailureText)] ∧
      replyOf .undefined = some (JSON.stringify .undefined) ∧
      ¬ (Entry.answer (.str askFailureText) = Entry.answer (JSON.stringify .undefined)) := by
  refine ⟨rfl, rfl, ?_⟩
  intro h
  have h2 : JSVal.str askFailureText = JSON.stringify .undefined := congrArg Entry.text h
  have h3 : JSON.stringify .undefined = .undefined := rfl
  rw [h3] at h2
  exact JSVal.noConfusion h2

/-- C6, amended: whatever log is present when an ask request settles, settlement
appends exactly one answer entry at its end and keeps every existing entry in
place.  When `fetch` rejects, when the body is not decodable, and when the
decoded body is `null`, the text of the entry is exactly
"❌ Failed to get response from server."; for every other decoded body it is
the reply computed from the `answer` field of the body (for the response
`{answer: {result: "March 3rd"}}`, the text "March 3rd"). -/
theorem ask_settlement_appends_one_answer (s : State) (r : FetchResult) (ok : Bool)
    (data answer : JSVal) (h : getProp data "answer" = some answer) :
    (∃ text, (applyEffects s (handleAskResume r)).answerList =
        s.answerList ++ [Entry.answer text]) ∧
      (applyEffects s (handleAskResume .rejected)).answerList =
        s.answerList ++ [Entry.answer (.str "❌ Failed to get response from server.")] ∧
      (applyEffects s (handleAskResume (.resolved ok none))).answerList =
        s.answerList ++ [Entry.answer (.str "❌ Failed to get response from server.")] ∧
      (applyEffects s (handleAskResume (.resolved ok (some .null)))).answerList =
        s.answerList ++ [Entry.answer (.str "❌ Failed to get response from server.")] ∧
      (∃ reply, replyOf answer = some reply ∧
        (applyEffects s (handleAskResume (.resolved ok (some data)))).answerList =
          s.answerList ++ [Entry.answer reply]) ∧
      (applyEffects s
          (handleAskResume
            (.resolved ok
              (some (.obj [("answer", .obj [("result", .str "March 3rd")])]))))).answerList =
        s.answerList ++ [Entry.answer (.str "March 3rd")] := by
  refine ⟨?_, rfl, rfl, rfl, ?_, rfl⟩
  · obtain ⟨text, ht⟩ := handleAskResume_spec r
    exact ⟨text, by rw [ht]; rfl⟩
  · obtain ⟨reply, hr, ht⟩ := askTry_of_answer data answer h
    refine ⟨reply, hr, ?_⟩
    simp only [handleAskResume, ht, Option.getD_some]
    rfl

/-- Witness of the amended C6: the question "What is the deadline?" answered by
`{answer: {result: "March 3rd"}}`. -/
theorem ask_settlement_appends_one_answer_witness :
    getProp (.obj [("answer", .obj [("result", .str "March 3rd")])]) "answer" =
        some (.obj [("result", .str "March 3rd")]) ∧
      (applyEffects
          { State.initial with answerList := [Entry.question "What is the deadline?"] }
          (handleAskResume
            (.resolved true
              (some (.obj [("answer", .obj [("result", .str "March 3rd")])]))))).answerList =
        [Entry.question "What is the deadline?"] ++ [Entry.answer (.str "March 3rd")] :=
  ⟨rfl,
   (ask_settlement_appends_one_answer
      { State.initial with answerList := [Entry.question "What is the deadline?"] }
      .rejected true (.obj [("answer", .obj [("result", .str "March 3rd")])])
      (.obj [("result", .str "March 3rd")]) rfl).2.2.2.2.2⟩

end ChatBox
